import Mathlib

/-!
Verification of the postfinance/vault helper libraries: the KV path adapter
(package kv, in its three observed variants) and the Kubernetes identity/token
component (package k8s).  Go code is shallowly embedded: pure string logic is
translated function by function; the external Vault API client is modelled as
an explicit key/value store passed through the operations; Go panics
(unguarded type assertions, out-of-range indexing, nil dereference) are
explicit constructors of the result types; Go map iteration in getVersion is
resolved to first-match order over an association list.
-/

/-! ### Models of the Go standard library string functions used by the code.
All are written over `List Char` with structural recursion so that concrete
instances evaluate in the kernel. -/

/-- Model of a byte/char list prefix test; `isPrefixOfL pre s` is true when
`pre` is a prefix of `s`. -/
def isPrefixOfL : List Char → List Char → Bool
  | [], _ => true
  | _ :: _, [] => false
  | c :: cs, d :: ds => c == d && isPrefixOfL cs ds

/-- Model of Go strings.HasPrefix. -/
def goHasPrefix (s pre : String) : Bool :=
  isPrefixOfL pre.data s.data

/-- Model of Go strings.HasSuffix. -/
def goHasSuffix (s suf : String) : Bool :=
  isPrefixOfL suf.data.reverse s.data.reverse

/-- Model of Go strings.TrimPrefix. -/
def goTrimPrefix (s pre : String) : String :=
  if goHasPrefix s pre then ⟨s.data.drop pre.data.length⟩ else s

/-- Model of Go strings.TrimLeft with cutset "/". -/
def goTrimLeftSlash (s : String) : String :=
  ⟨s.data.dropWhile (· == '/')⟩

/-- Model of Go strings.Split with a single-character separator, over char
lists.  The result is always non-empty. -/
def splitCharsOn (sep : Char) : List Char → List (List Char)
  | [] => [[]]
  | c :: cs =>
    match splitCharsOn sep cs with
    | [] => [[]]
    | s :: ss => if c == sep then [] :: s :: ss else (c :: s) :: ss

/-- Model of Go strings.Split(s, "/"). -/
def goSplitSlash (s : String) : List String :=
  (splitCharsOn '/' s.data).map (fun cs => ⟨cs⟩)

/-- Model of Go path.Clean, by its documented semantics: iteratively drop
empty and "." segments, resolve ".." against the segment stack (never above
the root of a rooted path), and render "." for an empty unrooted result. -/
def goPathClean (p : String) : String :=
  let rooted := goHasPrefix p "/"
  let segs := (goSplitSlash p).foldl
    (fun acc c =>
      if c = "" ∨ c = "." then acc
      else if c = ".." then
        if acc ≠ [] ∧ acc.getLast? ≠ some ".." then acc.dropLast
        else if rooted then acc
        else acc ++ [".."]
      else acc ++ [c]) []
  let out := String.intercalate "/" segs
  if rooted then "/" ++ out
  else if out = "" then "." else out

/-- Model of Go path.Join (go1.12): skip leading empty elements, join the
rest with "/", and Clean the result; all-empty input yields "". -/
def goPathJoin (elems : List String) : String :=
  match elems.dropWhile (· == "") with
  | [] => ""
  | e :: rest => goPathClean (String.intercalate "/" (e :: rest))

/-- Digit test used by the Atoi model. -/
def isDigitChar (c : Char) : Bool :=
  '0' ≤ c && c ≤ '9'

/-- Model of Go strconv.Atoi: optional sign, then decimal digits; empty or
malformed input and 64-bit overflow are errors carrying the Go message. -/
def goAtoi (s : String) : Except String Int :=
  let parsed : Bool × List Char :=
    match s.data with
    | '-' :: rest => (true, rest)
    | '+' :: rest => (false, rest)
    | cs => (false, cs)
  let neg := parsed.1
  let ds := parsed.2
  if ds = [] ∨ ¬ (ds.all isDigitChar = true) then
    .error ("strconv.Atoi: parsing \"" ++ s ++ "\": invalid syntax")
  else
    let n : Nat := ds.foldl (fun acc c => acc * 10 + (c.toNat - '0'.toNat)) 0
    let v : Int := if neg then -(n : Int) else (n : Int)
    if v < -9223372036854775808 ∨ 9223372036854775807 < v then
      .error ("strconv.Atoi: parsing \"" ++ s ++ "\": value out of range")
    else .ok v

/-! ### Data model: Go dynamic values, field maps, and the service store. -/

/-- A Go interface value as it occurs in secret payloads: a string, a slice,
or a nested map. -/
inductive Value where
  | str (s : String) : Value
  | vlist (xs : List Value) : Value
  | vmap (m : List (String × Value)) : Value

/-- A Go map[string]interface\x7b\x7d, as an association list. -/
abbrev FieldMap := List (String × Value)

/-- Go map indexing on a field map: missing keys yield none (the nil
interface). -/
def lookupField (data : FieldMap) (k : String) : Option Value :=
  match data with
  | [] => none
  | (k2, v) :: rest => if k2 = k then some v else lookupField rest k

/-- Go map indexing on string-valued options: missing keys yield the zero
value "". -/
def lookupOption (opts : List (String × String)) (k : String) : String :=
  match opts with
  | [] => ""
  | (k2, v) :: rest => if k2 = k then v else lookupOption rest k

/-- The modelled state of the Vault service for Logical() calls: a mapping
from wire path to the response body of a secret; a stored `none` body models
a secret whose Data map is nil. -/
abbrev Store := List (String × Option FieldMap)

/-- Logical().Read / Logical().List against the store: none models a nil
secret (no secret at that path). -/
def logicalRead (st : Store) (p : String) : Option (Option FieldMap) :=
  match st with
  | [] => none
  | (k, d) :: rest => if k = p then some d else logicalRead rest p

/-- Logical().Write against the store: the service records the submitted
data at the wire path. -/
def logicalWrite (st : Store) (p : String) (data : FieldMap) : Store :=
  (p, some data) :: st

/-- The unguarded Go type assertion v.(map[string]interface\x7b\x7d):
none models a panic. -/
def assertFieldMap : Option Value → Option FieldMap
  | some (Value.vmap m) => some m
  | _ => none

/-- The per-element unguarded assertion v.(string) inside the keys loop:
none models a panic on the first non-string element. -/
def castStrings : List Value → Option (List String)
  | [] => some []
  | Value.str s :: rest => (castStrings rest).map (fun ks => s :: ks)
  | _ => none

/-- The keys extraction shared by every List implementation:
s.Data["keys"].([]interface\x7b\x7d) followed by the v.(string) loop;
none models a panic. -/
def extractKeys (data : FieldMap) : Option (List String) :=
  match lookupField data "keys" with
  | some (Value.vlist vs) => castStrings vs
  | _ => none

/-! ### Result types for the embedded operations. -/

/-- Result of Client.Read: a Go panic, an error, or a returned map (none is
a nil map returned with a nil error). -/
inductive ReadResult where
  | panic : ReadResult
  | err (msg : String) : ReadResult
  | ok (data : Option FieldMap) : ReadResult

/-- Result of Client.List. -/
inductive ListResult where
  | panic : ListResult
  | err (msg : String) : ListResult
  | ok (keys : Option (List String)) : ListResult

/-- Result of Client.Write: a Go panic, or the new service state together
with the returned error. -/
inductive WriteResult where
  | panic : WriteResult
  | ok (st : Store) (e : Option String) : WriteResult

/-- Result of getVersion. -/
inductive VersionResult where
  | err (msg : String) : VersionResult
  | ok (version : Int) : VersionResult

/-- Result of getVersionAndMount. -/
inductive VMResult where
  | err (msg : String) : VMResult
  | ok (version : Int) (mount : String) : VMResult

/-- A mount table entry (api.MountOutput): the engine type and its options. -/
structure MountOutput where
  type : String
  Options : List (String × String)

/-- The mount table returned by Sys().ListMounts(), as an association list;
the nondeterministic Go map iteration of the source is resolved to
first-match order. -/
abbrev MountTable := List (String × MountOutput)

/-! ### Variant 1: src/kv/kv.go (namespace KV). -/

namespace KV

/-- The API sub-path constants of src/kv/kv.go. -/
def ReadPrefix : String := "data"

/-- WritePrefix = ReadPrefix in the source. -/
def WritePrefix : String := ReadPrefix

/-- The sub-path used by List. -/
def ListPrefix : String := "metadata"

/-- The KV client handle of src/kv/kv.go; the wrapped api.Client is passed
to each operation explicitly as the modelled Store. -/
structure Client where
  Version : Int

/-- fixPath of src/kv/kv.go: always inserts the API sub-path after the first
segment (no already-rewritten check). -/
def fixPath (p pfx : String) : String :=
  let pp := goSplitSlash p
  goPathJoin (pp.take 1 ++ [pfx] ++ pp.drop 1)

/-- getVersion of src/kv/kv.go: the first mount whose prefix matches must be
of type "kv"; its version option is parsed and must be 1 or 2.  The Go
function also returns the partial int alongside a non-nil error; only the
error is observable through New and is kept here. -/
def getVersion (mounts : MountTable) (p : String) : VersionResult :=
  match mounts.find? (fun km => goHasPrefix p km.1) with
  | none => .err ("failed to get mount for path: " ++ p)
  | some (k, m) =>
    if m.type ≠ "kv" then
      .err ("matching mount " ++ k ++ " for path " ++ p ++ " is not of type kv")
    else
      match goAtoi (lookupOption m.Options "version") with
      | .error e => .err e
      | .ok version =>
        if version = 1 ∨ version = 2 then .ok version
        else .err ("unknown version: " ++ toString version)

/-- Client.Read of src/kv/kv.go: on a nil secret it errors with the original
(pre-rewrite) path; on version 2 the body is unwrapped with an unguarded
type assertion (a nil Data map also panics there). -/
def Client.Read (c : Client) (st : Store) (p : String) : ReadResult :=
  let p2 := if c.Version = 2 then fixPath p ReadPrefix else p
  match logicalRead st p2 with
  | none => .err ("failed to read path " ++ p)
  | some d =>
    if c.Version = 2 then
      match d with
      | none => .panic
      | some data =>
        match assertFieldMap (lookupField data "data") with
        | none => .panic
        | some m2 => .ok (some m2)
    else .ok d

/-- Client.Write of src/kv/kv.go. -/
def Client.Write (c : Client) (st : Store) (p : String) (data : FieldMap) :
    WriteResult :=
  if c.Version = 2 then
    .ok (logicalWrite st (fixPath p WritePrefix) [("data", Value.vmap data)]) none
  else
    .ok (logicalWrite st p data) none

/-- Client.List of src/kv/kv.go: on a nil secret it errors with the original
path; the keys extraction is unguarded for both versions (a nil Data map
yields a nil interface and the assertion panics). -/
def Client.List (c : Client) (st : Store) (p : String) : ListResult :=
  let p2 := if c.Version = 2 then fixPath p ListPrefix else p
  match logicalRead st p2 with
  | none => .err ("failed to list path " ++ p)
  | some d =>
    match extractKeys (d.getD []) with
    | none => .panic
    | some ks => .ok (some ks)

end KV

/-! ### Variant 2: first file of src/unnamed/part_002, the first-segment
FixPath variant (namespace KVFS). -/

namespace KVFS

/-- The API sub-path constants. -/
def ReadPrefix : String := "data"

/-- WritePrefix = ReadPrefix in the source. -/
def WritePrefix : String := ReadPrefix

/-- The sub-path used by List. -/
def ListPrefix : String := "metadata"

/-- The KV client handle of the first-segment variant. -/
structure Client where
  Version : Int

/-- FixPath of the first-segment variant: if the second segment already is
the sub-path the path is returned unchanged, otherwise the sub-path is
inserted after the first segment.  Indexing pp[1] panics (none) on a path
without a slash. -/
def FixPath (p pfx : String) : Option String :=
  let pp := goSplitSlash p
  match pp[1]? with
  | none => none
  | some s1 =>
    if s1 = pfx then some p
    else some (goPathJoin (pp.take 1 ++ [pfx] ++ pp.drop 1))

/-- getVersion of the first-segment variant: type "kv" returns the parsed
version option with no range check, type "generic" returns 1, any other
type is an error. -/
def getVersion (mounts : MountTable) (p : String) : VersionResult :=
  match mounts.find? (fun km => goHasPrefix p km.1) with
  | none => .err ("failed to get mount for path: " ++ p)
  | some (k, m) =>
    if m.type = "kv" then
      match goAtoi (lookupOption m.Options "version") with
      | .error e => .err e
      | .ok version => .ok version
    else if m.type = "generic" then .ok 1
    else .err ("matching mount " ++ k ++ " for path " ++ p ++ " is not of type kv")

/-- Client.Read of the first-segment variant: a nil secret or a nil Data map
returns nil with no error; the version-2 unwrap is an unguarded assertion. -/
def Client.Read (c : Client) (st : Store) (p : String) : ReadResult :=
  match (if c.Version = 2 then FixPath p ReadPrefix else some p) with
  | none => .panic
  | some p2 =>
    match logicalRead st p2 with
    | none => .ok none
    | some none => .ok none
    | some (some data) =>
      if c.Version = 2 then
        match assertFieldMap (lookupField data "data") with
        | none => .panic
        | some m2 => .ok (some m2)
      else .ok (some data)

/-- Client.Write of the first-segment variant. -/
def Client.Write (c : Client) (st : Store) (p : String) (data : FieldMap) :
    WriteResult :=
  if c.Version = 2 then
    match FixPath p WritePrefix with
    | none => .panic
    | some p2 => .ok (logicalWrite st p2 [("data", Value.vmap data)]) none
  else
    .ok (logicalWrite st p data) none

/-- Client.List of the first-segment variant: a nil secret or a nil Data map
returns nil with no error; the keys extraction is unguarded. -/
def Client.List (c : Client) (st : Store) (p : String) : ListResult :=
  match (if c.Version = 2 then FixPath p ListPrefix else some p) with
  | none => .panic
  | some p2 =>
    match logicalRead st p2 with
    | none => .ok none
    | some none => .ok none
    | some (some data) =>
      match extractKeys data with
      | none => .panic
      | some ks => .ok (some ks)

end KVFS

/-! ### Variant 3: second file of src/unnamed/part_002, the mount-aware
FixPath variant (namespace KVMA). -/

namespace KVMA

/-- The API sub-path constants. -/
def ReadPrefix : String := "data"

/-- WritePrefix = ReadPrefix in the source. -/
def WritePrefix : String := ReadPrefix

/-- The sub-path used by List. -/
def ListPrefix : String := "metadata"

/-- The KV client handle of the mount-aware variant: it also caches the
resolved mount prefix. -/
structure Client where
  Version : Int
  Mount : String

/-- The mount normalisation at the top of the mount-aware FixPath: a
trailing slash is appended when missing. -/
def mountSlash (mount : String) : String :=
  if goHasSuffix mount "/" then mount else mount ++ "/"

/-- FixPath of the mount-aware variant: strip the known mount prefix, return
the path unchanged when the remainder already starts with the sub-path,
otherwise re-assemble mount ++ sub-path ++ "/" ++ remainder. -/
def FixPath (p mount pfx : String) : String :=
  let mount2 := mountSlash mount
  let secretPath := goTrimPrefix p mount2
  let pp := goSplitSlash secretPath
  if pp.headD "" = pfx then p
  else mount2 ++ pfx ++ "/" ++ secretPath

/-- getVersionAndMount of the mount-aware variant: type "kv" returns the
parsed version option (no range check) and the matching mount prefix, type
"generic" returns 1 and the prefix, any other type is an error. -/
def getVersionAndMount (mounts : MountTable) (p : String) : VMResult :=
  match mounts.find? (fun km => goHasPrefix p km.1) with
  | none => .err ("failed to get mount for path: " ++ p)
  | some (k, m) =>
    if m.type = "kv" then
      match goAtoi (lookupOption m.Options "version") with
      | .error e => .err e
      | .ok version => .ok version k
    else if m.type = "generic" then .ok 1 k
    else .err ("matching mount " ++ k ++ " for path " ++ p ++ " is not of type kv")

/-- Client.Read of the mount-aware variant: same nil policy and unguarded
version-2 unwrap as the first-segment variant, with the mount-aware rewrite. -/
def Client.Read (c : Client) (st : Store) (p : String) : ReadResult :=
  let p2 := if c.Version = 2 then FixPath p c.Mount ReadPrefix else p
  match logicalRead st p2 with
  | none => .ok none
  | some none => .ok none
  | some (some data) =>
    if c.Version = 2 then
      match assertFieldMap (lookupField data "data") with
      | none => .panic
      | some m2 => .ok (some m2)
    else .ok (some data)

/-- Client.Write of the mount-aware variant. -/
def Client.Write (c : Client) (st : Store) (p : String) (data : FieldMap) :
    WriteResult :=
  if c.Version = 2 then
    .ok (logicalWrite st (FixPath p c.Mount WritePrefix) [("data", Value.vmap data)]) none
  else
    .ok (logicalWrite st p data) none

/-- Client.List of the mount-aware variant. -/
def Client.List (c : Client) (st : Store) (p : String) : ListResult :=
  let p2 := if c.Version = 2 then FixPath p c.Mount ListPrefix else p
  match logicalRead st p2 with
  | none => .ok none
  | some none => .ok none
  | some (some data) =>
    match extractKeys data with
    | none => .panic
    | some ks => .ok (some ks)

end KVMA

/-! ### The Kubernetes identity/token component, src/unnamed/part_000
(namespace K8s). -/

namespace K8s

/-- The error chains produced with github.com/pkg/errors: either a plain
message (fmt.Errorf) or a wrapped cause with added context (errors.Wrap,
errors.Wrapf with the format already rendered). -/
inductive GoError where
  | msg (s : String) : GoError
  | wrap (context : String) (cause : GoError) : GoError

/-- The api.SecretAuth payload of a login response. -/
structure SecretAuth where
  ClientToken : String

/-- The api.Secret fields Authenticate inspects; Auth is a nullable
pointer. -/
structure LoginSecret where
  Warnings : List String
  Auth : Option SecretAuth

/-- Outcome of a (token, error) returning method: a Go panic, or the token
with the returned error. -/
inductive TokenOutcome where
  | panic : TokenOutcome
  | ret (token : String) (e : Option GoError) : TokenOutcome

/-- FixAuthMountPath of src/unnamed/part_000: split on "/" after trimming
every leading "/", keep the path when the first segment is "auth", else
prepend "auth"; either way the segments are re-joined with path.Join. -/
def FixAuthMountPath (p : String) : String :=
  let pp := goSplitSlash (goTrimLeftSlash p)
  if pp.headD "" = "auth" then goPathJoin pp
  else goPathJoin ("auth" :: pp)

/-- Vault.Authenticate: fails when the jwt file is unreadable or the login
call errors; a login response with a non-empty warning list is a failure
even though the call succeeded; otherwise the issued client token is
returned.  The collaborator results (file read, login call) are inputs; a
nil response secret or nil Auth pointer dereference is a panic. -/
def Authenticate (role : String) (jwtFile : Except GoError String)
    (login : Except GoError (Option LoginSecret)) : TokenOutcome :=
  match jwtFile with
  | .error e => .ret "" (some (.wrap "failed to read jwt token" e))
  | .ok _jwt =>
    match login with
    | .error e =>
      .ret "" (some (.wrap
        ("login failed with role from environment variable VAULT_ROLE: \"" ++ role ++ "\"") e))
    | .ok none => .panic
    | .ok (some s) =>
      if s.Warnings ≠ [] then
        .ret "" (some (.msg ("login failed with: " ++ String.intercalate " - " s.Warnings)))
      else
        match s.Auth with
        | none => .panic
        | some a => .ret a.ClientToken none

/-- Vault.GetToken: a failed token load re-authenticates when ReAuth is set
and otherwise propagates the wrapped load error with an empty token; after
a successful load a failed self-renew re-authenticates when ReAuth is set
and otherwise propagates the wrapped renew error; a successful load and
renew returns the loaded token.  The collaborator results (LoadToken,
RenewSelf, Authenticate) are inputs. -/
def GetToken (ReAuth : Bool) (TokenPath : String)
    (load : Except GoError String) (renew : Except GoError Unit)
    (auth : TokenOutcome) : TokenOutcome :=
  match load with
  | .error e =>
    if ReAuth then auth
    else .ret "" (some (.wrap ("failed to load token form: " ++ TokenPath) e))
  | .ok token =>
    match renew with
    | .error e =>
      if ReAuth then auth
      else .ret "" (some (.wrap "failed to renew token" e))
    | .ok _ => .ret token none

end K8s

/-! ### Helper lemmas. -/

/-- When the prefix test succeeds, TrimPrefix drops exactly the prefix
length. -/
theorem goTrimPrefix_eq_drop {s pre : String} (h : goHasPrefix s pre = true) :
    goTrimPrefix s pre = String.mk (s.data.drop pre.data.length) := by
  simp [goTrimPrefix, h]

/-- A path with at least two "/"-separated segments always has a
first-segment rewrite (the Go pp[1] access cannot panic). -/
theorem KVFS_FixPath_isSome ( p pfx : String)
    (hp : 2 ≤ (goSplitSlash p).length) :
    ∃ q, KVFS.FixPath p pfx = some q := by
  have h1 : 1 < (goSplitSlash p).length := hp
  by_cases hc : (goSplitSlash p)[1] = pfx
  · exact ⟨p, by simp [KVFS.FixPath, List.getElem?_eq_getElem h1, hc]⟩
  · exact ⟨goPathJoin ((goSplitSlash p).take 1 ++ [pfx] ++ (goSplitSlash p).drop 1),
      by simp [KVFS.FixPath, List.getElem?_eq_getElem h1, hc]⟩

/-! ### Claim theorems. -/

/-- Claim C1: the mount-aware FixPath, on a path lying under the
slash-normalised mount whose first remaining segment is not the sub-path,
inserts the sub-path immediately after the mount prefix, however many
segments deep the mount is; in particular on the two concrete inputs of the
specification. -/
theorem FixPath_mountAware_inserts_after_mount ( p mount pfx : String)
    (h1 : goHasPrefix p (KVMA.mountSlash mount) = true)
    (h2 : (goSplitSlash (goTrimPrefix p (KVMA.mountSlash mount))).headD "" ≠ pfx) :
    KVMA.FixPath p mount pfx
      = KVMA.mountSlash mount ++ pfx ++ "/"
          ++ String.mk (p.data.drop (KVMA.mountSlash mount).data.length) ∧
    KVMA.FixPath "secret/foo" "secret/" "data" = "secret/data/foo" ∧
    KVMA.FixPath "secret/foo/kv/bar" "secret/foo/kv/" "data" = "secret/foo/kv/data/bar" := by
  refine ⟨?_, rfl, rfl⟩
  have hd := goTrimPrefix_eq_drop h1
  simp only [KVMA.FixPath]
  rw [if_neg h2, hd]

/-- Witness for C1 at the concrete input of the specification. -/
theorem FixPath_mountAware_inserts_after_mount_witness :
    KVMA.FixPath "secret/foo" "secret/" "data"
      = KVMA.mountSlash "secret/" ++ "data" ++ "/"
          ++ String.mk ("secret/foo".data.drop (KVMA.mountSlash "secret/").data.length) ∧
    KVMA.FixPath "secret/foo" "secret/" "data" = "secret/data/foo" ∧
    KVMA.FixPath "secret/foo/kv/bar" "secret/foo/kv/" "data" = "secret/foo/kv/data/bar" :=
  FixPath_mountAware_inserts_after_mount "secret/foo" "secret/" "data" rfl (by decide)

/-- Counterexample for C2: fixPath of src/kv/kv.go has no already-rewritten
check and is not idempotent; a path that already carries the sub-path in
second position is rewritten again. -/
theorem fixPath_kvGo_not_idempotent :
    KV.fixPath "secret/data/foo" "data" = "secret/data/data/foo" ∧
    KV.fixPath "secret/data/foo" "data" ≠ "secret/data/foo" :=
  ⟨rfl, by decide⟩

/-- Claim C2 (amended): rewriting is idempotent in the two part_002
variants: a path whose segment at the expected position already equals the
sub-path is returned unchanged (and double application fixes nothing more,
shown on the concrete inputs); fixPath of src/kv/kv.go has no such check
and always inserts. -/
theorem FixPath_idempotent_part002 ( p mount pfx : String) :
    ((goSplitSlash p)[1]? = some pfx → KVFS.FixPath p pfx = some p) ∧
    ((goSplitSlash (goTrimPrefix p (KVMA.mountSlash mount))).headD "" = pfx →
        KVMA.FixPath p mount pfx = p) ∧
    KVMA.FixPath "secret/data/foo" "secret" "data" = "secret/data/foo" ∧
    (KVFS.FixPath "secret/foo" "data").bind (fun q => KVFS.FixPath q "data")
      = KVFS.FixPath "secret/foo" "data" ∧
    KVMA.FixPath (KVMA.FixPath "secret/foo" "secret/" "data") "secret/" "data"
      = KVMA.FixPath "secret/foo" "secret/" "data" := by
  refine ⟨?_, ?_, rfl, rfl, rfl⟩
  · intro h
    simp [KVFS.FixPath, h]
  · intro h
    simp only [KVMA.FixPath]
    rw [if_pos h]

/-- Witness for C2 at the concrete input of the specification. -/
theorem FixPath_idempotent_part002_witness :
    KVFS.FixPath "secret/data/foo" "data" = some "secret/data/foo" ∧
    KVMA.FixPath "secret/data/foo" "secret" "data" = "secret/data/foo" :=
  ⟨(FixPath_idempotent_part002 "secret/data/foo" "secret" "data").1 rfl,
   (FixPath_idempotent_part002 "secret/data/foo" "secret" "data").2.1 (by decide)⟩

/-- Claim C7: FixAuthMountPath splits on "/" after stripping the leading
"/" characters, keeps the trimmed path when the first segment is "auth",
otherwise prepends "auth"; in particular on the four concrete inputs of the
specification. -/
theorem FixAuthMountPath_normalisation ( p : String) :
    ((goSplitSlash (goTrimLeftSlash p)).headD "" = "auth" →
        K8s.FixAuthMountPath p = goPathJoin (goSplitSlash (goTrimLeftSlash p))) ∧
    ((goSplitSlash (goTrimLeftSlash p)).headD "" ≠ "auth" →
        K8s.FixAuthMountPath p = goPathJoin ("auth" :: goSplitSlash (goTrimLeftSlash p))) ∧
    K8s.FixAuthMountPath "kubernetes" = "auth/kubernetes" ∧
    K8s.FixAuthMountPath "/kubernetes/" = "auth/kubernetes" ∧
    K8s.FixAuthMountPath "auth/kubernetes" = "auth/kubernetes" ∧
    K8s.FixAuthMountPath "kubernetes/something" = "auth/kubernetes/something" := by
  refine ⟨fun h => ?_, fun h => ?_, rfl, rfl, rfl, rfl⟩
  · simp only [K8s.FixAuthMountPath]
    rw [if_pos h]
  · simp only [K8s.FixAuthMountPath]
    rw [if_neg h]

/-- Witness for C7 at concrete inputs for both branches. -/
theorem FixAuthMountPath_normalisation_witness :
    K8s.FixAuthMountPath "auth/kubernetes"
      = goPathJoin (goSplitSlash (goTrimLeftSlash "auth/kubernetes")) ∧
    K8s.FixAuthMountPath "kubernetes"
      = goPathJoin ("auth" :: goSplitSlash (goTrimLeftSlash "kubernetes")) :=
  ⟨(FixAuthMountPath_normalisation "auth/kubernetes").1 rfl,
   (FixAuthMountPath_normalisation "kubernetes").2.1 (by decide)⟩

/-- Claim C3: with the service modelled as a key/value store, Write followed
by Read at the same path returns the written field map, for detected
revision 1 and for revision 2 (where the Read unwrap of the "data" key
inverts the Write wrap). -/
theorem Read_after_Write_roundtrip (st : Store) ( p : String) (m : FieldMap)
    (v : Int) (hv : v = 1 ∨ v = 2) (hp : 2 ≤ (goSplitSlash p).length) :
    ∃ st', KVFS.Client.Write ⟨v⟩ st p m = .ok st' none ∧
           KVFS.Client.Read ⟨v⟩ st' p = .ok (some m) := by
  rcases hv with hv | hv <;> subst hv
  · refine ⟨logicalWrite st p m, ?_, ?_⟩
    · simp [KVFS.Client.Write]
    · simp [KVFS.Client.Read, logicalWrite, logicalRead]
  · obtain ⟨q, hq⟩ := KVFS_FixPath_isSome p KVFS.WritePrefix hp
    refine ⟨logicalWrite st q [("data", Value.vmap m)], ?_, ?_⟩
    · simp [KVFS.Client.Write, hq]
    · have hq2 : KVFS.FixPath p KVFS.ReadPrefix = some q := hq
      simp [KVFS.Client.Read, hq2, logicalWrite, logicalRead, lookupField,
        assertFieldMap]

/-- Witness for C3 at a concrete store, path and field map, revision 2. -/
theorem Read_after_Write_roundtrip_witness :
    ∃ st', KVFS.Client.Write ⟨2⟩ [] "secret/foo" [("k", Value.str "v")]
             = .ok st' none ∧
           KVFS.Client.Read ⟨2⟩ st' "secret/foo"
             = .ok (some [("k", Value.str "v")]) :=
  Read_after_Write_roundtrip [] "secret/foo" [("k", Value.str "v")] 2
    (Or.inr rfl) (by decide)

/-- Counterexample for C4: getVersion of src/kv/kv.go has no "generic" case
and fails with the mount-type error on a matching mount of type "generic"
instead of detecting revision 1. -/
theorem getVersion_kvGo_generic_fails :
    KV.getVersion [("secret/", ⟨"generic", []⟩)] "secret/foo" =
      .err "matching mount secret/ for path secret/foo is not of type kv" := rfl

/-- Claim C4 (amended): when the first matching mount has the legacy type
"generic", the two part_002 variants detect revision 1 with no error (the
mount-aware variant also returning the matching prefix), while getVersion of
src/kv/kv.go rejects the mount with a mount-type error. -/
theorem getVersion_generic_detects_v1 (mounts : MountTable) ( p k : String)
    (m : MountOutput)
    (hf : mounts.find? (fun km => goHasPrefix p km.1) = some (k, m))
    (ht : m.type = "generic") :
    KVFS.getVersion mounts p = .ok 1 ∧
    KVMA.getVersionAndMount mounts p = .ok 1 k ∧
    KV.getVersion mounts p =
      .err ("matching mount " ++ k ++ " for path " ++ p ++ " is not of type kv") := by
  refine ⟨?_, ?_, ?_⟩ <;>
    simp [KVFS.getVersion, KVMA.getVersionAndMount, KV.getVersion, hf, ht]

/-- Witness for C4 at a concrete mount table. -/
theorem getVersion_generic_detects_v1_witness :
    KVFS.getVersion [("secret/", ⟨"generic", []⟩)] "secret/foo" = .ok 1 ∧
    KVMA.getVersionAndMount [("secret/", ⟨"generic", []⟩)] "secret/foo"
      = .ok 1 "secret/" ∧
    KV.getVersion [("secret/", ⟨"generic", []⟩)] "secret/foo" =
      .err ("matching mount " ++ "secret/" ++ " for path " ++ "secret/foo"
        ++ " is not of type kv") :=
  getVersion_generic_detects_v1 [("secret/", ⟨"generic", []⟩)] "secret/foo"
    "secret/" ⟨"generic", []⟩ rfl rfl

/-- Counterexample for C5: the two part_002 variants return the parsed
version option without any range check, so a declared version of 3 is
accepted with no error. -/
theorem getVersion_part002_accepts_version3 :
    KVFS.getVersion [("secret/", ⟨"kv", [("version", "3")]⟩)] "secret/x"
      = .ok 3 ∧
    KVMA.getVersionAndMount [("secret/", ⟨"kv", [("version", "3")]⟩)] "secret/x"
      = .ok 3 "secret/" :=
  ⟨rfl, rfl⟩

/-- Claim C5 (amended): for a first matching mount of type "kv", every
variant fails when the version option is missing (the Go map zero value ""
never parses) or non-numeric, propagating the Atoi error; on a successful
parse the src/kv/kv.go variant alone enforces the version to be 1 or 2 and
errors otherwise, while the two part_002 variants return whatever integer
was parsed. -/
theorem getVersion_kv_option_policy (mounts : MountTable) ( p k : String)
    (m : MountOutput)
    (hf : mounts.find? (fun km => goHasPrefix p km.1) = some (k, m))
    (ht : m.type = "kv") :
    (∀ e, goAtoi (lookupOption m.Options "version") = .error e →
        KV.getVersion mounts p = .err e ∧
        KVFS.getVersion mounts p = .err e ∧
        KVMA.getVersionAndMount mounts p = .err e) ∧
    (∀ v, goAtoi (lookupOption m.Options "version") = .ok v →
        KVFS.getVersion mounts p = .ok v ∧
        KVMA.getVersionAndMount mounts p = .ok v k ∧
        ((v = 1 ∨ v = 2) → KV.getVersion mounts p = .ok v) ∧
        (¬ (v = 1 ∨ v = 2) →
          KV.getVersion mounts p = .err ("unknown version: " ++ toString v))) ∧
    goAtoi "" = .error "strconv.Atoi: parsing \"\": invalid syntax" := by
  refine ⟨?_, ?_, rfl⟩
  · intro e he
    refine ⟨?_, ?_, ?_⟩ <;>
      simp [KV.getVersion, KVFS.getVersion, KVMA.getVersionAndMount, hf, ht, he]
  · intro v hvv
    refine ⟨?_, ?_, ?_, ?_⟩
    · simp [KVFS.getVersion, hf, ht, hvv]
    · simp [KVMA.getVersionAndMount, hf, ht, hvv]
    · intro h12
      rcases h12 with h | h <;> subst h <;> simp [KV.getVersion, hf, ht, hvv]
    · intro h12
      simp [KV.getVersion, hf, ht, hvv, h12]

/-- Witness for C5 at concrete mount tables: a well-formed version 2 mount,
and a mount with a non-numeric version option. -/
theorem getVersion_kv_option_policy_witness :
    KVFS.getVersion [("secret/", ⟨"kv", [("version", "2")]⟩)] "secret/x"
      = .ok 2 ∧
    KV.getVersion [("secret/", ⟨"kv", [("version", "x")]⟩)] "secret/x"
      = .err "strconv.Atoi: parsing \"x\": invalid syntax" :=
  ⟨((getVersion_kv_option_policy [("secret/", ⟨"kv", [("version", "2")]⟩)]
      "secret/x" "secret/" ⟨"kv", [("version", "2")]⟩ rfl rfl).2.1 2 rfl).1,
   ((getVersion_kv_option_policy [("secret/", ⟨"kv", [("version", "x")]⟩)]
      "secret/x" "secret/" ⟨"kv", [("version", "x")]⟩ rfl rfl).1
      "strconv.Atoi: parsing \"x\": invalid syntax" rfl).1⟩

/-- Claim C6: the nil-secret policy is deterministic per variant: the
src/kv/kv.go Read and List return an error naming the original pre-rewrite
path on a nil service result, while both part_002 variants return nil with
no error whenever the secret or its Data map is nil. -/
theorem nil_secret_policy (st : Store) (mount p : String) :
    (logicalRead st (KV.fixPath p KV.ReadPrefix) = none →
        KV.Client.Read ⟨2⟩ st p = .err ("failed to read path " ++ p)) ∧
    (logicalRead st p = none →
        KV.Client.Read ⟨1⟩ st p = .err ("failed to read path " ++ p)) ∧
    (logicalRead st (KV.fixPath p KV.ListPrefix) = none →
        KV.Client.List ⟨2⟩ st p = .err ("failed to list path " ++ p)) ∧
    (logicalRead st p = none →
        KV.Client.List ⟨1⟩ st p = .err ("failed to list path " ++ p)) ∧
    (∀ q, KVFS.FixPath p KVFS.ReadPrefix = some q →
        logicalRead st q = none ∨ logicalRead st q = some none →
        KVFS.Client.Read ⟨2⟩ st p = .ok none) ∧
    (logicalRead st p = none ∨ logicalRead st p = some none →
        KVFS.Client.Read ⟨1⟩ st p = .ok none) ∧
    (∀ q, KVFS.FixPath p KVFS.ListPrefix = some q →
        logicalRead st q = none ∨ logicalRead st q = some none →
        KVFS.Client.List ⟨2⟩ st p = .ok none) ∧
    (logicalRead st (KVMA.FixPath p mount KVMA.ReadPrefix) = none ∨
     logicalRead st (KVMA.FixPath p mount KVMA.ReadPrefix) = some none →
        KVMA.Client.Read ⟨2, mount⟩ st p = .ok none) ∧
    (logicalRead st (KVMA.FixPath p mount KVMA.ListPrefix) = none ∨
     logicalRead st (KVMA.FixPath p mount KVMA.ListPrefix) = some none →
        KVMA.Client.List ⟨2, mount⟩ st p = .ok none) := by
  refine ⟨?_, ?_, ?_, ?_, ?_, ?_, ?_, ?_, ?_⟩
  · intro h; simp [KV.Client.Read, h]
  · intro h; simp [KV.Client.Read, h]
  · intro h; simp [KV.Client.List, h]
  · intro h; simp [KV.Client.List, h]
  · intro q hq h
    rcases h with h | h <;> simp [KVFS.Client.Read, hq, h]
  · intro h
    rcases h with h | h <;> simp [KVFS.Client.Read, h]
  · intro q hq h
    rcases h with h | h <;> simp [KVFS.Client.List, hq, h]
  · intro h
    rcases h with h | h <;> simp [KVMA.Client.Read, h]
  · intro h
    rcases h with h | h <;> simp [KVMA.Client.List, h]

/-- Witness for C6 on the empty store: kv.go errors with the original path,
both part_002 variants return nil with no error. -/
theorem nil_secret_policy_witness :
    KV.Client.Read ⟨2⟩ [] "secret/foo" = .err ("failed to read path " ++ "secret/foo") ∧
    KVFS.Client.Read ⟨2⟩ [] "secret/foo" = .ok none ∧
    KVMA.Client.Read ⟨2, "secret/"⟩ [] "secret/foo" = .ok none :=
  ⟨(nil_secret_policy [] "secret/" "secret/foo").1 rfl,
   (nil_secret_policy [] "secret/" "secret/foo").2.2.2.2.1 "secret/data/foo"
     rfl (Or.inl rfl),
   (nil_secret_policy [] "secret/" "secret/foo").2.2.2.2.2.2.2.1 (Or.inl rfl)⟩

/-- Claim C8: Authenticate treats any non-empty warning list in the login
response as a failure, returning an empty token and an error even when the
response carries a client token; the issued token is returned only when the
call succeeds and the warning list is empty. -/
theorem Authenticate_warnings_policy (role jwt : String) (s : K8s.LoginSecret) :
    (s.Warnings ≠ [] →
        K8s.Authenticate role (.ok jwt) (.ok (some s)) =
          .ret "" (some (.msg
            ("login failed with: " ++ String.intercalate " - " s.Warnings)))) ∧
    (∀ a, s.Warnings = [] → s.Auth = some a →
        K8s.Authenticate role (.ok jwt) (.ok (some s)) = .ret a.ClientToken none) := by
  constructor
  · intro h
    simp [K8s.Authenticate, h]
  · intro a h ha
    simp [K8s.Authenticate, h, ha]

/-- Witness for C8: a response with one warning and a token fails with an
empty token; the same response without warnings yields the token. -/
theorem Authenticate_warnings_policy_witness :
    K8s.Authenticate "r" (.ok "j") (.ok (some ⟨["w"], some ⟨"tok"⟩⟩)) =
      .ret "" (some (.msg ("login failed with: " ++ String.intercalate " - " ["w"]))) ∧
    K8s.Authenticate "r" (.ok "j") (.ok (some ⟨[], some ⟨"tok"⟩⟩)) =
      .ret "tok" none :=
  ⟨(Authenticate_warnings_policy "r" "j" ⟨["w"], some ⟨"tok"⟩⟩).1 (by decide),
   (Authenticate_warnings_policy "r" "j" ⟨[], some ⟨"tok"⟩⟩).2 ⟨"tok"⟩ rfl rfl⟩

/-- Claim C9: GetToken with ReAuth false turns a load or renew failure into
an empty token and an error wrapping that failure; with ReAuth true it
returns the result of a fresh Authenticate call instead; when load and renew
succeed it returns the loaded token with no error. -/
theorem GetToken_reauth_policy (tp tok : String) (e : K8s.GoError)
    (renew : Except K8s.GoError Unit) (auth : K8s.TokenOutcome) :
    K8s.GetToken false tp (.error e) renew auth =
      .ret "" (some (.wrap ("failed to load token form: " ++ tp) e)) ∧
    K8s.GetToken true tp (.error e) renew auth = auth ∧
    K8s.GetToken false tp (.ok tok) (.error e) auth =
      .ret "" (some (.wrap "failed to renew token" e)) ∧
    K8s.GetToken true tp (.ok tok) (.error e) auth = auth ∧
    (∀ b : Bool, K8s.GetToken b tp (.ok tok) (.ok ()) auth = .ret tok none) :=
  ⟨rfl, rfl, rfl, rfl, fun _ => rfl⟩

/-- Claim C10: the version-2 unwrap in Read and the keys extraction in List
are unguarded type assertions: a non-nil response body lacking the expected
key with the expected type makes the operation panic rather than return an
error, in each cited variant. -/
theorem unguarded_type_assertions_panic (st : Store) (mount p : String)
    (d : FieldMap) :
    (logicalRead st (KV.fixPath p KV.ReadPrefix) = some (some d) →
        assertFieldMap (lookupField d "data") = none →
        KV.Client.Read ⟨2⟩ st p = .panic) ∧
    (logicalRead st (KV.fixPath p KV.ListPrefix) = some (some d) →
        extractKeys d = none →
        KV.Client.List ⟨2⟩ st p = .panic) ∧
    (∀ q, KVFS.FixPath p KVFS.ReadPrefix = some q →
        logicalRead st q = some (some d) →
        assertFieldMap (lookupField d "data") = none →
        KVFS.Client.Read ⟨2⟩ st p = .panic) ∧
    (logicalRead st (KVMA.FixPath p mount KVMA.ListPrefix) = some (some d) →
        extractKeys d = none →
        KVMA.Client.List ⟨2, mount⟩ st p = .panic) := by
  refine ⟨?_, ?_, ?_, ?_⟩
  · intro h ha; simp [KV.Client.Read, h, ha]
  · intro h ha; simp [KV.Client.List, h, ha]
  · intro q hq h ha; simp [KVFS.Client.Read, hq, h, ha]
  · intro h ha; simp [KVMA.Client.List, h, ha]

/-- Witness for C10: stores whose response bodies lack the "data" and
"keys" fields make the version-2 operations panic. -/
theorem unguarded_type_assertions_panic_witness :
    KV.Client.Read ⟨2⟩ [("secret/data/foo", some [("x", Value.str "y")])]
      "secret/foo" = .panic ∧
    KVFS.Client.Read ⟨2⟩ [("secret/data/foo", some [("x", Value.str "y")])]
      "secret/foo" = .panic ∧
    KVMA.Client.List ⟨2, "secret/"⟩
      [("secret/metadata/foo", some [("x", Value.str "y")])] "secret/foo" = .panic :=
  ⟨(unguarded_type_assertions_panic
      [("secret/data/foo", some [("x", Value.str "y")])] "secret/" "secret/foo"
      [("x", Value.str "y")]).1 rfl rfl,
   (unguarded_type_assertions_panic
      [("secret/data/foo", some [("x", Value.str "y")])] "secret/" "secret/foo"
      [("x", Value.str "y")]).2.2.1 "secret/data/foo" rfl rfl rfl,
   (unguarded_type_assertions_panic
      [("secret/metadata/foo", some [("x", Value.str "y")])] "secret/" "secret/foo"
      [("x", Value.str "y")]).2.2.2 rfl rfl⟩
